import Mathlib

/-!
Shallow embedding of `src/inspire_schemas/builders/authors.py` (the
`AuthorBuilder` record builder) and proofs about its operations.

Python values occurring in an author record are modelled by the inductive
type `PyVal`; a Python dict is modelled as an ordered association list,
matching the insertion-order semantics of Python dicts.  Each builder
operation is a function from the record (and its arguments) to the pair of
the resulting record and an optional raised exception: Python mutation in
place
is rendered as explicit state passing, and a raised exception leaves the
partially mutated state in the first component.

The external collaborators from `inspire_utils` (the name normalizer, the
date normalizer and the list coercion utility) are not part of this
repository; the operations that call them are parameterized over them.
-/

set_option autoImplicit false
set_option linter.unusedVariables false

namespace AuthorsPy

/-- A Python value as it occurs in an author record: None, a string, a
boolean, a list, or a dict (an ordered association list from string keys
to values, matching Python dict insertion order). -/
inductive PyVal where
  | null : PyVal
  | str : String → PyVal
  | bool : Bool → PyVal
  | list : List PyVal → PyVal
  | dict : List (String × PyVal) → PyVal

/-- An author record (and likewise any nested dict): an ordered
association list of string keys and Python values. -/
abbrev Obj := List (String × PyVal)

/-- Dict lookup `o[key]` returning `none` when the key is absent
(keys are unique in any dict built or consumed here, and lookup takes
the first match). -/
def dlookup : Obj → String → Option PyVal
  | [], _ => none
  | (k, v) :: rest, key => if k = key then some v else dlookup rest key

/-- Python `key in o` on a dict: key membership. -/
def dmember (o : Obj) (key : String) : Bool :=
  (dlookup o key).isSome

/-- Python assignment `o[key] = v`: replaces the value in place when the
key is present (preserving its position), otherwise appends the new pair
at the end, as Python dict insertion order does. -/
def dset : Obj → String → PyVal → Obj
  | [], key, v => [(key, v)]
  | (k, w) :: rest, key, v =>
      if k = key then (k, v) :: rest else (k, w) :: dset rest key v

/-- Python `o.setdefault(key, v)`: leaves the dict unchanged when the key
is present, otherwise inserts the pair at the end. -/
def dsetdefault (o : Obj) (key : String) (v : PyVal) : Obj :=
  if dmember o key then o else o ++ [(key, v)]

/-- Modelled from the spec: the `EMPTIES` sentinel collection imported
from `inspire_schemas.utils`, which is code of this repository not under
`src/`.  Per the spec, a value is empty when it is the null value, the
empty string, the empty sequence, or the empty mapping; membership in
`EMPTIES` is Python equality against those four values. -/
def isEmpty : PyVal → Bool
  | .null => true
  | .str s => s.isEmpty
  | .bool _ => false
  | .list xs => xs.isEmpty
  | .dict kvs => kvs.isEmpty

/-- Python truthiness of an optional string parameter with default
`None`, as tested by `if param:`. -/
def optTruthy : Option String → Bool
  | none => false
  | some s => !s.isEmpty

/-- Python truthiness of a general value, as tested by `if ids:` in
`add_advisor`. -/
def pyTruthy : PyVal → Bool
  | .null => false
  | .str s => !s.isEmpty
  | .bool b => b
  | .list xs => !xs.isEmpty
  | .dict kvs => !kvs.isEmpty

/-- An optional string argument as the Python value stored in an entry:
`None` becomes the null value. -/
def optStr : Option String → PyVal
  | none => .null
  | some s => .str s

/-- Exceptions the builder code can raise. -/
inductive Err where
  | nameError : String → Err
  | keyError : String → Err
  | typeError : Err
  | attributeError : Err

/-- Embeds `AuthorBuilder.__init__` (lines 36-39): an absent author
argument starts from the empty record, otherwise the supplied record is
used as is, with no validation. -/
def builderInit : Option Obj → Obj
  | none => []
  | some author => author

/-- Embeds `AuthorBuilder._append_to` (lines 41-53): when `element` is
not in `EMPTIES`, `setdefault(field, [])` followed by
`obj.get(field).append(element)`.  Calling `.append` on a present
non-list value raises `AttributeError`; the raised-exception case is
returned in the second component with the state in the first. -/
def append_to (r : Obj) (field : String) (element : PyVal) : Obj × Option Err :=
  if isEmpty element then (r, none)
  else
    let r1 := dsetdefault r field (.list [])
    match dlookup r1 field with
    | some (.list xs) => (dset r1 field (.list (xs ++ [element])), none)
    | _ => (r1, some .attributeError)

/-- Embeds `AuthorBuilder.set_name` (lines 55-63): appends a one-key
dict holding the normalized full name to the `name` field via
`_append_to`.  `nn` is the external name normalizer. -/
def set_name (nn : String → String) (r : Obj) (value : String) : Obj × Option Err :=
  append_to r "name" (.dict [("value", .str (nn value))])

/-- Embeds `AuthorBuilder.set_display_name` (lines 65-73): appends a
one-key dict holding the preferred name to the `name` field via
`_append_to`. -/
def set_display_name (r : Obj) (name : String) : Obj × Option Err :=
  append_to r "name" (.dict [("preferred_name", .str name)])

/-- Python `needle in v` for a string needle and a container of any
shape: key membership for a dict, element equality for a list (a
non-string element never equals a string), substring test for a string,
and `TypeError` (returned as `none`) for None and booleans. -/
def pyIn (needle : String) : PyVal → Option Bool
  | .dict kvs => some (dmember kvs needle)
  | .list xs => some (xs.any fun x => match x with | .str s => s = needle | _ => false)
  | .str s => some (decide (List.IsInfix needle.data s.data))
  | _ => none

/-- Embeds `AuthorBuilder.add_native_name` (lines 75-91) statement by
statement.  The outer test is `if name in self.obj`, a key-membership
test of the supplied string against the record itself.  Inside it, the
condition `if "native_names" in self.obj["name"]` first subscripts the
record at `name` (KeyError when absent) and then tests containment.  In
the true branch `self.obj["name"]["native_names"].append(name)` appends
in place when that subscript chain yields a list (TypeError when
`self.obj["name"]` is not subscriptable by a string, AttributeError when
the subscript yields a non-list).  In the false branch the statement
`self.obj["name"]["native_names"] == [name]` is a bare comparison: its
left-hand subscript is still evaluated, raising KeyError on a dict
without the key and TypeError on any non-dict, and on success the
comparison has no effect.  The outer else appends a fresh one-key dict
to the `name` field via `_append_to`. -/
def add_native_name (r : Obj) (name : String) : Obj × Option Err :=
  if dmember r name then
    match dlookup r "name" with
    | none => (r, some (.keyError "name"))
    | some v =>
      match pyIn "native_names" v with
      | none => (r, some .typeError)
      | some true =>
        match v with
        | .dict kvs =>
          match dlookup kvs "native_names" with
          | some (.list xs) =>
              (dset r "name" (.dict (dset kvs "native_names" (.list (xs ++ [.str name])))),
               none)
          | some _ => (r, some .attributeError)
          | none => (r, some (.keyError "native_names"))
        | _ => (r, some .typeError)
      | some false =>
        match v with
        | .dict kvs =>
          match dlookup kvs "native_names" with
          | some _ => (r, none)
          | none => (r, some (.keyError "native_names"))
        | _ => (r, some .typeError)
  else
    append_to r "name" (.dict [("native_names", .list [.str name])])

/-- Embeds `AuthorBuilder.add_email_address` (lines 93-99). -/
def add_email_address (r : Obj) (email : String) : Obj × Option Err :=
  append_to r "email_addresses" (.str email)

/-- Embeds `AuthorBuilder.set_status` (lines 101-107). -/
def set_status (r : Obj) (status : String) : Obj × Option Err :=
  append_to r "status" (.str status)

/-- Embeds `AuthorBuilder.add_url` (lines 109-121): the entry dict
always carries both keys, with the description argument (default
`None`) stored as given. -/
def add_url (r : Obj) (value : String) (description : Option String) : Obj × Option Err :=
  append_to r "urls" (.dict [("value", .str value), ("description", optStr description)])

/-- Embeds `AuthorBuilder.add_blog` (lines 123-132). -/
def add_blog (r : Obj) (url : String) : Obj × Option Err :=
  append_to r "urls" (.dict [("value", .str url), ("description", .str "blog")])

/-- Embeds `AuthorBuilder.add_linkedin` (lines 134-143). -/
def add_linkedin (r : Obj) (url : String) : Obj × Option Err :=
  append_to r "ids" (.dict [("value", .str url), ("schema", .str "LINKEDIN")])

/-- Embeds `AuthorBuilder.add_twitter` (lines 145-154). -/
def add_twitter (r : Obj) (url : String) : Obj × Option Err :=
  append_to r "ids" (.dict [("value", .str url), ("schema", .str "TWITTER")])

/-- Embeds `AuthorBuilder.add_research_field` (lines 156-162). -/
def add_research_field (r : Obj) (category : String) : Obj × Option Err :=
  append_to r "arxiv_categories" (.str category)

/-- Embeds `AuthorBuilder.add_institution` (lines 164-200).  The entry
dict is built in source order: `institution`, then `start_date` and
`end_date` (normalized through the external date normalizer `nd`) and
`rank` when truthy.  Line 197 assigns into the misspelled identifier
`new_instituion`, so a truthy `record` argument raises `NameError`
before anything is appended to the record.  Otherwise the two boolean
flags are written and the entry is appended to `positions`. -/
def add_institution (nd : String → String) (r : Obj) (institution : String)
    (start_date end_date rank record : Option String)
    (curated current : Bool) : Obj × Option Err :=
  let ni : Obj := [("institution", .str institution)]
  let ni := match start_date with
    | some s => if !s.isEmpty then dset ni "start_date" (.str (nd s)) else ni
    | none => ni
  let ni := match end_date with
    | some s => if !s.isEmpty then dset ni "end_date" (.str (nd s)) else ni
    | none => ni
  let ni := match rank with
    | some s => if !s.isEmpty then dset ni "rank" (.str s) else ni
    | none => ni
  if optTruthy record then (r, some (.nameError "new_instituion"))
  else
    let ni := dset (dset ni "curated_relation" (.bool curated)) "current" (.bool current)
    append_to r "positions" (.dict ni)

/-- Embeds `AuthorBuilder.add_project` (lines 202-233).  The first
statement after `new_experiment` is initialized reads the identifier
`institution`, which is not bound anywhere in the function (its
parameter is `name`), so every call raises `NameError` before any field
of the record is written; the remaining statements of the body are
unreachable. -/
def add_project (nd : String → String) (r : Obj) (name : String)
    (record start_date end_date : Option String)
    (curated current : Bool) : Obj × Option Err :=
  (r, some (.nameError "institution"))

/-- Embeds `AuthorBuilder.add_advisor` (lines 235-262): name normalized
through `nn`, a truthy `ids` argument coerced through the external list
coercion utility `fl`, degree type and record included when truthy, the
curated flag always written, and the entry appended to `advisors`. -/
def add_advisor (nn : String → String) (fl : PyVal → PyVal) (r : Obj) (name : String)
    (ids : PyVal) (degree_type record : Option String) (curated : Bool) : Obj × Option Err :=
  let na : Obj := [("name", .str (nn name))]
  let na := if pyTruthy ids then dset na "ids" (fl ids) else na
  let na := match degree_type with
    | some s => if !s.isEmpty then dset na "degree_type" (.str s) else na
    | none => na
  let na := match record with
    | some s => if !s.isEmpty then dset na "record" (.str s) else na
    | none => na
  let na := dset na "curated_relation" (.bool curated)
  append_to r "advisors" (.dict na)

/-- Embeds `AuthorBuilder.add_comment` (lines 264-273): the entry dict
always carries both keys, with the source argument (default `None`)
stored as given. -/
def add_comment (r : Obj) (comment : String) (source : Option String) : Obj × Option Err :=
  append_to r "_private_notes" (.dict [("value", .str comment), ("source", optStr source)])

/-- Repeated invocation of the append primitive with a list of elements,
in call order, following the state of the record through each call. -/
def appendAll (r : Obj) (field : String) (es : List PyVal) : Obj :=
  es.foldl (fun acc e => (append_to acc field e).fst) r

/-- The entries a field holds before an append: the elements when the
field holds a list, nothing otherwise. -/
def prevEntries : Option PyVal → List PyVal
  | some (.list xs) => xs
  | _ => []

theorem dlookup_dset_self (o : Obj) (k : String) (v : PyVal) :
    dlookup (dset o k v) k = some v := by
  induction o with
  | nil => simp [dset, dlookup]
  | cons p rest ih =>
    obtain ⟨k1, v1⟩ := p
    by_cases h : k1 = k
    · simp [dset, dlookup, h]
    · simp [dset, dlookup, h, ih]

theorem dlookup_dset_ne (o : Obj) (k : String) (v : PyVal) (g : String)
    (h : g ≠ k) : dlookup (dset o k v) g = dlookup o g := by
  induction o with
  | nil => simp [dset, dlookup, Ne.symm h]
  | cons p rest ih =>
    obtain ⟨k1, v1⟩ := p
    by_cases h1 : k1 = k
    · subst h1
      simp [dset, dlookup, Ne.symm h]
    · simp [dset, dlookup, h1, ih]

theorem dlookup_append_self (o : Obj) (k : String) (v : PyVal)
    (h : dlookup o k = none) : dlookup (o ++ [(k, v)]) k = some v := by
  induction o with
  | nil => simp [dlookup]
  | cons p rest ih =>
    obtain ⟨k1, v1⟩ := p
    by_cases h1 : k1 = k
    · simp [dlookup, h1] at h
    · simp [dlookup, h1] at h ⊢
      exact ih h

theorem dlookup_append_ne (o : Obj) (k : String) (v : PyVal) (g : String)
    (h : g ≠ k) : dlookup (o ++ [(k, v)]) g = dlookup o g := by
  induction o with
  | nil => simp [dlookup, Ne.symm h]
  | cons p rest ih =>
    obtain ⟨k1, v1⟩ := p
    by_cases h1 : k1 = g
    · simp [dlookup, h1]
    · simp [dlookup, h1, ih]

theorem append_to_of_none (r : Obj) (f : String) (e : PyVal)
    (he : isEmpty e = false) (h : dlookup r f = none) :
    append_to r f e = (dset (r ++ [(f, PyVal.list [])]) f (PyVal.list [e]), none) := by
  have hm : dmember r f = false := by simp [dmember, h]
  simp only [append_to, he, Bool.false_eq_true, if_false, dsetdefault, hm]
  rw [dlookup_append_self r f _ h]
  simp

theorem append_to_of_list (r : Obj) (f : String) (e : PyVal) (xs : List PyVal)
    (he : isEmpty e = false) (h : dlookup r f = some (PyVal.list xs)) :
    append_to r f e = (dset r f (PyVal.list (xs ++ [e])), none) := by
  have hm : dmember r f = true := by simp [dmember, h]
  simp only [append_to, he, Bool.false_eq_true, if_false, dsetdefault, hm, if_true]
  rw [h]

theorem appendAll_lookup_acc (field : String) (es : List PyVal) :
    ∀ (r : Obj) (xs : List PyVal), dlookup r field = some (PyVal.list xs) →
      (∀ x ∈ es, isEmpty x = false) →
      dlookup (appendAll r field es) field = some (PyVal.list (xs ++ es)) := by
  induction es with
  | nil =>
    intro r xs h _
    simpa [appendAll] using h
  | cons e es ih =>
    intro r xs h hall
    have he : isEmpty e = false := hall e (by simp)
    have h2 : dlookup ((append_to r field e).fst) field
        = some (PyVal.list (xs ++ [e])) := by
      rw [append_to_of_list r field e xs he h]
      exact dlookup_dset_self r field _
    have h3 := ih ((append_to r field e).fst) (xs ++ [e]) h2
      (fun x hx => hall x (by simp [hx]))
    simpa [appendAll, List.append_assoc] using h3

/-- C1: the claim states that setting the full name, then the preferred
name, then adding a native name leaves a single mapping at the `name`
field holding the keys `value`, `preferred_name` and `native_names`
simultaneously.  The code instead routes all three writes through the
append primitive, so on the empty builder the `name` field ends up
holding a list of three separate one-key dicts, not one merged mapping:
this theorem evaluates the three calls at that input and exhibits the
resulting list. -/
theorem C1_name_field_holds_three_separate_entries :
    add_native_name
      (set_display_name (set_name (fun s => s) [] "Smith, John").fst "Johnny").fst
      "Jon" =
    ([("name", PyVal.list
        [PyVal.dict [("value", PyVal.str "Smith, John")],
         PyVal.dict [("preferred_name", PyVal.str "Johnny")],
         PyVal.dict [("native_names", PyVal.list [PyVal.str "Jon"])]])],
     none) := rfl

/-- C2: the claim states that adding two native names in sequence yields
`record.name.native_names = [first, second]`.  On the empty builder the
code instead appends a fresh one-key dict to the `name` list on each
call, so the two native names end up in two separate entries, each
holding a singleton list: this theorem evaluates the two calls and
exhibits that shape. -/
theorem C2_two_native_names_become_two_entries :
    add_native_name (add_native_name [] "Ivanov").fst "Petrov" =
    ([("name", PyVal.list
        [PyVal.dict [("native_names", PyVal.list [PyVal.str "Ivanov"])],
         PyVal.dict [("native_names", PyVal.list [PyVal.str "Petrov"])]])],
     none) := rfl

/-- C3: the claim states that no fact-registration operation ever raises,
in particular `add_institution` with a `record` argument supplied.  The
code assigns into the misspelled identifier `new_instituion` on that
path, so the call raises `NameError` and appends nothing: this theorem
evaluates `add_institution` at such an input. -/
theorem C3_add_institution_with_record_raises :
    add_institution (fun s => s) [] "CERN" none none none
        (some "http://example.org/api/institutions/902725") false false
      = ([], some (Err.nameError "new_instituion")) := rfl

/-- C4: the claim states that `add_project` builds its entry from the
supplied project name and appends it to `project_membership`.  The body
instead reads the identifier `institution`, which is bound nowhere in
the function, so every call raises `NameError` before writing anything:
this theorem evaluates `add_project` at a plain input. -/
theorem C4_add_project_always_raises :
    add_project (fun s => s) [] "ATLAS" none none none false false
      = ([], some (Err.nameError "institution")) := rfl

/-- C5 counterexample: the claim states that an unsupplied optional
parameter is omitted from the constructed entry, in particular that
`add_url` without a description yields a `urls` entry containing only
`value`, and `add_comment` without a source yields a `_private_notes`
entry containing only `value`.  Evaluating both calls on the empty
builder shows the entries carry an explicit `description` (resp.
`source`) key holding the null value. -/
theorem C5_counterexample_null_keys_not_omitted :
    add_url [] "http://x.test" none =
      ([("urls", PyVal.list [PyVal.dict
        [("value", PyVal.str "http://x.test"), ("description", PyVal.null)]])], none)
    ∧ add_comment [] "talked at CERN" none =
      ([("_private_notes", PyVal.list [PyVal.dict
        [("value", PyVal.str "talked at CERN"), ("source", PyVal.null)]])], none) :=
  ⟨rfl, rfl⟩

/-- C5 amended: optional parameters guarded by truthiness tests
(`start_date`, `end_date`, `rank`, `ids`, `degree_type`, `record` of
`add_advisor`) are omitted from the constructed entry when unsupplied,
but `add_url` always writes the `description` key and `add_comment`
always writes the `source` key, storing the null value when the argument
is not supplied. -/
theorem C5_unsupplied_optionals_omitted_except_url_and_comment :
    ∀ (v c inst adv : String) (r : Obj) (nn nd : String → String)
      (fl : PyVal → PyVal) (cur cc : Bool),
      add_url r v none
        = append_to r "urls"
            (PyVal.dict [("value", PyVal.str v), ("description", PyVal.null)])
      ∧ add_comment r c none
        = append_to r "_private_notes"
            (PyVal.dict [("value", PyVal.str c), ("source", PyVal.null)])
      ∧ add_institution nd r inst none none none none cur cc
        = append_to r "positions"
            (PyVal.dict [("institution", PyVal.str inst),
                         ("curated_relation", PyVal.bool cur),
                         ("current", PyVal.bool cc)])
      ∧ add_advisor nn fl r adv PyVal.null none none cur
        = append_to r "advisors"
            (PyVal.dict [("name", PyVal.str (nn adv)),
                         ("curated_relation", PyVal.bool cur)]) :=
  fun _ _ _ _ _ _ _ _ _ _ => ⟨rfl, rfl, rfl, rfl⟩

/-- C6: `add_institution` with only an institution name appends exactly
the minimal entry holding `institution` and the two boolean flags, and a
supplied start or end date is normalized through the date normalizer and
included together with a supplied rank; but a supplied (truthy) `record`
argument hits the misspelled assignment target `new_instituion` and
raises `NameError` instead of being included, so the record-inclusion
part of the claim fails on the code. -/
theorem C6_add_institution_minimal_entry_and_record_defect :
    ∀ nd : String → String,
      add_institution nd [] "CERN" none none none none false false
        = ([("positions", PyVal.list [PyVal.dict
            [("institution", PyVal.str "CERN"),
             ("curated_relation", PyVal.bool false),
             ("current", PyVal.bool false)]])], none)
      ∧ add_institution nd [] "CERN" (some "2020") (some "2021") (some "staff")
            none true true
        = ([("positions", PyVal.list [PyVal.dict
            [("institution", PyVal.str "CERN"),
             ("start_date", PyVal.str (nd "2020")),
             ("end_date", PyVal.str (nd "2021")),
             ("rank", PyVal.str "staff"),
             ("curated_relation", PyVal.bool true),
             ("current", PyVal.bool true)]])], none)
      ∧ add_institution nd [] "CERN" none none none (some "http://inst.record/1")
            false false
        = ([], some (Err.nameError "new_instituion")) :=
  fun _ => ⟨rfl, rfl, rfl⟩

/-- C7: appending a value that is empty per the `EMPTIES` sentinel
collection (null, empty string, empty sequence, empty mapping) leaves
the record unchanged and raises nothing: the field is not created when
absent and untouched when present. -/
theorem C7_append_empty_is_noop (r : Obj) (field : String) (element : PyVal)
    (h : isEmpty element = true) : append_to r field element = (r, none) := by
  simp [append_to, h]

/-- Witness for C7 at a concrete record, field and empty element. -/
theorem C7_append_empty_is_noop_witness :
    isEmpty PyVal.null = true
    ∧ append_to [("status", PyVal.list [PyVal.str "active"])] "urls" PyVal.null
        = ([("status", PyVal.list [PyVal.str "active"])], none) :=
  ⟨rfl, C7_append_empty_is_noop _ "urls" PyVal.null rfl⟩

/-- C8: appending a non-empty element to an absent field creates the
field as a singleton sequence, and appending a sequence of non-empty
elements one after the other leaves the field holding exactly those
elements in call order, with no deduplication, sorting or merging. -/
theorem C8_first_call_creates_singleton_then_order_preserved
    (r : Obj) (field : String) (e : PyVal) (es : List PyVal)
    (habs : dlookup r field = none) (he : isEmpty e = false)
    (hes : ∀ x ∈ es, isEmpty x = false) :
    dlookup (append_to r field e).fst field = some (PyVal.list [e])
    ∧ dlookup (appendAll r field (e :: es)) field = some (PyVal.list (e :: es)) := by
  have h1 : dlookup (append_to r field e).fst field = some (PyVal.list [e]) := by
    rw [append_to_of_none r field e he habs]
    exact dlookup_dset_self _ field _
  refine ⟨h1, ?_⟩
  have h2 := appendAll_lookup_acc field es (append_to r field e).fst [e] h1 hes
  simpa [appendAll] using h2

/-- Witness for C8 at a concrete record, field and two elements. -/
theorem C8_first_call_creates_singleton_then_order_preserved_witness :
    dlookup (appendAll [("status", PyVal.list [PyVal.str "active"])]
        "arxiv_categories" [PyVal.str "hep-th", PyVal.str "hep-th"])
        "arxiv_categories"
      = some (PyVal.list [PyVal.str "hep-th", PyVal.str "hep-th"]) :=
  (C8_first_call_creates_singleton_then_order_preserved
      [("status", PyVal.list [PyVal.str "active"])] "arxiv_categories"
      (PyVal.str "hep-th") [PyVal.str "hep-th"] rfl rfl
      (by intro x hx; simp at hx; subst hx; rfl)).2

/-- C9 counterexample: the claim quantifies over every single
fact-registration call, but `add_project` on a builder constructed over
a pre-existing record raises `NameError` and appends nothing, so the
resulting record does not contain the one new fact the claim promises. -/
theorem C9_counterexample_add_project_appends_no_fact :
    add_project (fun s => s)
        (builderInit (some [("status", PyVal.list [PyVal.str "active"])]))
        "ATLAS" none none none false false
      = ([("status", PyVal.list [PyVal.str "active"])],
         some (Err.nameError "institution"))
    ∧ dlookup (add_project (fun s => s)
        (builderInit (some [("status", PyVal.list [PyVal.str "active"])]))
        "ATLAS" none none none false false).fst "project_membership" = none :=
  ⟨rfl, rfl⟩

/-- C9 amended: a builder constructed over a pre-existing record edits
exactly that record, and every invocation of the append primitive that
completes without raising preserves the lookup of every field other than
the targeted one and leaves the targeted field holding its previous
entries followed by exactly the one appended element; the defective
operations that raise append nothing. -/
theorem C9_append_primitive_frame (r : Obj) (field : String) (e : PyVal)
    (he : isEmpty e = false)
    (hok : (append_to (builderInit (some r)) field e).snd = none) :
    (∀ g, g ≠ field →
      dlookup (append_to (builderInit (some r)) field e).fst g = dlookup r g)
    ∧ dlookup (append_to (builderInit (some r)) field e).fst field
        = some (PyVal.list (prevEntries (dlookup r field) ++ [e])) := by
  simp only [builderInit] at hok ⊢
  cases hv : dlookup r field with
  | none =>
    rw [append_to_of_none r field e he hv]
    constructor
    · intro g hg
      rw [dlookup_dset_ne _ field _ g hg, dlookup_append_ne _ field _ g hg]
    · rw [dlookup_dset_self]
      simp [prevEntries]
  | some v =>
    cases v with
    | list xs =>
      rw [append_to_of_list r field e xs he hv]
      constructor
      · intro g hg
        exact dlookup_dset_ne _ field _ g hg
      · rw [dlookup_dset_self]
        simp [prevEntries]
    | null =>
      have hm : dmember r field = true := by simp [dmember, hv]
      simp [append_to, he, dsetdefault, hm, hv] at hok
    | str s =>
      have hm : dmember r field = true := by simp [dmember, hv]
      simp [append_to, he, dsetdefault, hm, hv] at hok
    | bool b =>
      have hm : dmember r field = true := by simp [dmember, hv]
      simp [append_to, he, dsetdefault, hm, hv] at hok
    | dict kvs =>
      have hm : dmember r field = true := by simp [dmember, hv]
      simp [append_to, he, dsetdefault, hm, hv] at hok

/-- Witness for C9 at a concrete pre-existing record and one append. -/
theorem C9_append_primitive_frame_witness :
    isEmpty (PyVal.str "jane@cern.ch") = false
    ∧ dlookup (append_to
        (builderInit (some [("status", PyVal.list [PyVal.str "active"])]))
        "email_addresses" (PyVal.str "jane@cern.ch")).fst "status"
      = dlookup [("status", PyVal.list [PyVal.str "active"])] "status"
    ∧ dlookup (append_to
        (builderInit (some [("status", PyVal.list [PyVal.str "active"])]))
        "email_addresses" (PyVal.str "jane@cern.ch")).fst "email_addresses"
      = some (PyVal.list
          (prevEntries (dlookup [("status", PyVal.list [PyVal.str "active"])]
            "email_addresses") ++ [PyVal.str "jane@cern.ch"])) :=
  ⟨rfl,
   (C9_append_primitive_frame [("status", PyVal.list [PyVal.str "active"])]
      "email_addresses" (PyVal.str "jane@cern.ch") rfl rfl).1 "status" (by decide),
   (C9_append_primitive_frame [("status", PyVal.list [PyVal.str "active"])]
      "email_addresses" (PyVal.str "jane@cern.ch") rfl rfl).2⟩

/-- C10 counterexample: the claim states that when the supplied name is
itself a top-level key of the record and the mapping at the `name` field
lacks the `native_names` key, the call silently discards the native name
without writing any field.  The record is indeed left unchanged and
nothing is written, but the call is not silent: evaluating the left-hand
subscript of the bare comparison raises `KeyError` on the missing
`native_names` key, as this concrete evaluation shows. -/
theorem C10_counterexample_discard_raises_keyerror :
    add_native_name
        [("x", PyVal.str "v"), ("name", PyVal.dict [("value", PyVal.str "n")])]
        "x"
      = ([("x", PyVal.str "v"), ("name", PyVal.dict [("value", PyVal.str "n")])],
         some (Err.keyError "native_names")) := rfl

/-- C10 amended: whenever the supplied name string is a top-level key of
the record and the value at the `name` field is a mapping without the
`native_names` key, `add_native_name` writes no field and returns the
record unchanged, but not silently: the comparison statement in its
native-names branch raises `KeyError` on the missing `native_names`
key. -/
theorem C10_native_branch_unchanged_with_keyerror
    (r : Obj) (name : String) (kvs : Obj)
    (hmem : dmember r name = true)
    (hname : dlookup r "name" = some (PyVal.dict kvs))
    (habs : dlookup kvs "native_names" = none) :
    add_native_name r name = (r, some (Err.keyError "native_names")) := by
  have hsome : (dlookup r name).isSome = true := by simpa [dmember] using hmem
  simp [add_native_name, dmember, hsome, hname, pyIn, habs]

/-- Witness for C10 at a concrete record whose `name` mapping lacks the
`native_names` key and whose keys include the supplied string. -/
theorem C10_native_branch_unchanged_with_keyerror_witness :
    dmember [("status", PyVal.list [PyVal.str "active"]),
             ("name", PyVal.dict [("preferred_name", PyVal.str "J")])] "status" = true
    ∧ add_native_name
        [("status", PyVal.list [PyVal.str "active"]),
         ("name", PyVal.dict [("preferred_name", PyVal.str "J")])] "status"
      = ([("status", PyVal.list [PyVal.str "active"]),
          ("name", PyVal.dict [("preferred_name", PyVal.str "J")])],
         some (Err.keyError "native_names")) :=
  ⟨rfl,
   C10_native_branch_unchanged_with_keyerror
     [("status", PyVal.list [PyVal.str "active"]),
      ("name", PyVal.dict [("preferred_name", PyVal.str "J")])]
     "status" [("preferred_name", PyVal.str "J")] rfl rfl rfl⟩

end AuthorsPy
